import Mathlib

/-!
A shallow embedding of the regression-range resolver and Mercurial helpers
of the `oldcompileshell` repository, together with theorems settling the
frozen behavioural claims about them.

The embedding covers:
* `ocs/util/hg_helpers.py` — `exists_and_is_ancestor` (the ancestry oracle)
  and `get_repo_hash_and_id` (repository-position resolution with the
  interactive prompt).  External process invocations (`subprocess.run`) are
  modelled by passing the process's result in as an explicit argument: a
  completed process is a `CompletedProcess` (exit status plus captured,
  permissively decoded output), and a Python-level exception raised by the
  call (timeout, failure to launch) is a `ProcError`.
* `src/funfuzz/autobisectjs/known_broken_earliest_working.py` — `hgrange`,
  `known_broken_ranges`, `earliest_known_working_rev` and
  `common_descendants`.  The ambient `platform.system()` /
  `platform.machine()` lookups become an explicit `Platform` value, and the
  option object becomes the `Options` record of the boolean fields the file
  reads.

String primitives used by the Python code (`in` substring test, `str.strip`,
`str.split(" ")`) are re-implemented below by structural recursion on
character lists so that every definition evaluates inside the kernel.
-/

/-! ## String primitives -/

/-- Substring occurrence on character lists: `charsContain pat s` is true iff
`pat` occurs contiguously inside `s` (Python's `pat in s` / `s.find(pat) >= 0`). -/
def charsContain (pat : List Char) : List Char → Bool
  | [] => pat.isEmpty
  | c :: rest => pat.isPrefixOf (c :: rest) || charsContain pat rest

/-- Python's substring test `pat in s` (and `s.find(pat) >= 0`). -/
def containsSubstr (s pat : String) : Bool :=
  charsContain pat.data s.data

/-- The whitespace characters Python's `str.strip` removes (the ones relevant
to this code base). -/
def isSpaceChar (c : Char) : Bool :=
  c = ' ' || c = '\t' || c = '\n' || c = '\r'

/-- Drop leading whitespace from a character list. -/
def dropLeadingSpace : List Char → List Char
  | [] => []
  | c :: rest => if isSpaceChar c then dropLeadingSpace rest else c :: rest

/-- Python's `str.strip()`: remove leading and trailing whitespace. -/
def pyStrip (s : String) : String :=
  String.mk ((dropLeadingSpace (dropLeadingSpace s.data).reverse).reverse)

/-- Helper for `pySplitSpace`: accumulate the current field (reversed) while
scanning the remaining characters. -/
def splitSpaceAux (acc : List Char) : List Char → List String
  | [] => [String.mk acc.reverse]
  | c :: rest =>
      if c = ' ' then String.mk acc.reverse :: splitSpaceAux [] rest
      else splitSpaceAux (c :: acc) rest

/-- Python's `s.split(" ")`: split at every single space character, keeping
empty fields (`"".split(" ") == [""]`). -/
def pySplitSpace (s : String) : List String :=
  splitSpaceAux [] s.data

/-! ## External process model (`subprocess.run`)

`subprocess.run` either raises (`TimeoutExpired` after the `timeout=` budget,
or `OSError` when the process cannot be launched) or yields a completed
process carrying an exit status and the captured output (`stderr` folded into
`stdout`, decoded with `errors="replace"`).  `exists_and_is_ancestor` passes
`check=False`, so a non-zero exit status does *not* raise. -/

/-- A Python-level exception raised by `subprocess.run` itself. -/
inductive ProcError where
  | timeoutExpired
  | osError
deriving DecidableEq

/-- A completed external process: its exit status and its captured output. -/
structure CompletedProcess where
  returncode : Int
  stdout : String
deriving DecidableEq

/-- The sentinel Mercurial prints for a revision that does not exist. -/
def unknownRevSentinel : String := "abort: unknown revision"

/-! ## `ocs/util/hg_helpers.py` -/

/-- The `hg log` command `exists_and_is_ancestor` runs (its argument list). -/
def ancestorQueryCmd (repo_dir rev_a rev_b : String) : List String :=
  ["hg", "-R", repo_dir, "log", "-r",
   rev_a ++ " and ancestor(" ++ rev_a ++ "," ++ rev_b ++ ")",
   "--template={node|short}"]

/-- `hg_helpers.exists_and_is_ancestor`: run one `hg log` query and report
whether `rev_a` exists and is an ancestor of `rev_b`.  `hgRun` stands for
`subprocess.run` (with `check=False`): an exception it raises propagates
unchanged; otherwise the decoded output is inspected — the result is the
boolean `out != "" and out.find("abort: unknown revision") < 0`. -/
def exists_and_is_ancestor (repo_dir rev_a rev_b : String)
    (hgRun : List String → Except ProcError CompletedProcess) :
    Except ProcError Bool :=
  match hgRun (ancestorQueryCmd repo_dir rev_a rev_b) with
  | Except.error e => Except.error e
  | Except.ok cp =>
      Except.ok (cp.stdout != "" && !(containsSubstr cp.stdout unknownRevSentinel))

/-- The `hg log --template "{node|short} {rev}"` command `get_repo_hash_and_id`
runs for the revset `repo_rev`. -/
def logCmds (repo_dir repo_rev : String) : List String :=
  ["hg", "-R", repo_dir, "log", "-r", repo_rev, "--template", "{node|short} {rev}"]

/-- The `hg update default` command run when the operator chooses `d`. -/
def updateDefaultCmd (repo_dir : String) : List String :=
  ["hg", "-R", repo_dir, "update", "default"]

/-- How one call of `get_repo_hash_and_id` ends. -/
inductive RepoIdOutcome where
  /-- `sys.exit(code)` — the process terminates with that status. -/
  | exited (code : Nat)
  /-- `ValueError` raised (invalid operator choice, or the final
  `hash local-number` unpacking failed). -/
  | valueError
  /-- The `assert hg_id_full != ""` failed. -/
  | assertFailed
  /-- Normal return of `(hash, local id, is_on_default)`. -/
  | returned (hgHash localNum : String) (onDefault : Bool)
deriving DecidableEq

/-- The tail of `get_repo_hash_and_id`: assert the query output is non-empty,
then unpack `"{node|short} {rev}"` into the hash / local-number pair
(`ValueError` when the split does not give exactly two fields). -/
def finishRepoId (out : String) (onDefault : Bool) : RepoIdOutcome :=
  if out = "" then RepoIdOutcome.assertFailed
  else
    match pySplitSpace out with
    | [h, n] => RepoIdOutcome.returned h n onDefault
    | _ => RepoIdOutcome.valueError

/-- `hg_helpers.get_repo_hash_and_id`, with its interactions made explicit:
`firstOut` is the output of the initial position query (empty exactly when
the checkout is not on default), `userInput` the operator's reply to the
prompt, and `secondOut` the output of the re-query a `d`/`u` choice issues
(the checkout may have moved, so it is a separate input).  The result pairs
the outcome with the trace of external commands issued, in order. -/
def get_repo_hash_and_id (repo_dir repo_rev : String) (firstOut : String)
    (userInput : String) (secondOut : String) :
    RepoIdOutcome × List (List String) :=
  let cmds := logCmds repo_dir repo_rev
  if firstOut != "" then (finishRepoId firstOut true, [cmds])
  else
    let choice := pyStrip userInput
    if choice = "a" then (RepoIdOutcome.exited 0, [cmds])
    else if choice = "d" then
      (finishRepoId secondOut true, [cmds, updateDefaultCmd repo_dir, cmds])
    else if choice = "u" then
      (finishRepoId secondOut false, [cmds, logCmds repo_dir "parents()"])
    else (RepoIdOutcome.valueError, [cmds])

/-! ## `src/funfuzz/autobisectjs/known_broken_earliest_working.py` -/

/-- The runtime platform facts the file reads through `platform.system()` and
`platform.machine()`. -/
structure Platform where
  system : String
  machine : String
deriving DecidableEq

/-- The option fields `known_broken_ranges` and `earliest_known_working_rev`
read from the option object. -/
structure Options where
  disableProfiling : Bool
  enableDbg : Bool
  enableMoreDeterministic : Bool
  enableSimulatorArm32 : Bool
  enable32 : Bool
deriving DecidableEq

/-- `hgrange(first_bad, first_good)`: the revset
`(descendants(id(first_bad))-descendants(id(first_good)))` — like
`first_bad::first_good` but including branches that never got the fix. -/
def hgrange (first_bad first_good : String) : String :=
  "(descendants(id(" ++ first_bad ++ "))-descendants(id(" ++ first_good ++ ")))"

/-- `known_broken_ranges(options)`: the list of revsets of known-busted
revisions.  Four unconditional entries, then platform- and option-gated
entries appended in source order (the Python builds the same list with
`skips.extend` under `if` guards). -/
def known_broken_ranges (p : Platform) (options : Options) : List String :=
  [hgrange "4c72627cfc6c" "926f80f2c5cc",  -- Fx60, broken spidermonkey
   hgrange "1fb7ddfad86d" "5202cfbf8d60",  -- Fx63, broken spidermonkey
   hgrange "aae4f349fa58" "c5fbbf959e23",  -- Fx64, broken spidermonkey
   hgrange "f611bc50d11c" "39d0c50a2209"]  -- Fx66, broken spidermonkey
  ++ (if p.system = "Darwin" then
        [hgrange "3d0236f985f8" "32cef42080b1"]  -- Fx68, bug 1544418
      else [])
  ++ (if p.system = "Linux" then
        [hgrange "e94dceac8090" "516c01f62d84"]  -- Fx56-57, GCC 5, bug 1386011
        ++ (if p.machine = "aarch64" then
              [hgrange "e8bb22053e65" "999757e9e5a5"]  -- Fx54, bug 1336344
            else [])
        ++ (if options.disableProfiling = false then
              [hgrange "aa1da5ed8a07" "5a03382283ae"]  -- Fx54-55, bug 1339190
            else [])
      else [])
  ++ (if options.enableDbg = false then
        [hgrange "c5561749c1c6" "f4c15a88c937",  -- Fx58-59, broken opt builds
         hgrange "247e265373eb" "e4aa68e2a85b"]  -- Fx66, broken opt builds
      else [])
  ++ (if options.enableMoreDeterministic = true then
        [hgrange "427b854cdb1c" "4c4e45853808"]  -- Fx68, bug 1542980
      else [])
  ++ (if options.enableSimulatorArm32 = true then
        [hgrange "284002382c21" "05669ce25b03"]  -- Fx57-61, broken ARM-sim
      else [])

/-- The conditional part of the `required` list `earliest_known_working_rev`
builds: one trigger test per table row, in the source's (descending
restrictiveness) order.  `flags` membership tests translate the Python `in`
tests, and the `--cpu-count=` row's trigger is the substring scan the loop at
the top of the function performs. -/
def required_base (p : Platform) (options : Options) (flags : List String) :
    List String :=
  (if "--enable-experimental-fields" ∈ flags then
     ["7a1ad6647c22bd34a6c70e67dc26e5b83f71cea4"]  -- m-c 463705 Fx67
   else [])
  ++ (if "--wasm-compiler=none" ∈ flags ∨ "--wasm-compiler=baseline+ion" ∈ flags
        ∨ "--wasm-compiler=baseline" ∈ flags ∨ "--wasm-compiler=ion" ∈ flags then
        ["48dc14f79fb0a51ca796257a4179fe6f16b71b14"]  -- m-c 455252 Fx66
      else [])
  ++ (if "--more-compartments" ∈ flags then
        ["450b8f0cbb4e494b399ebcf23a33b8d9cb883245"]  -- m-c 453627 Fx66
      else [])
  ++ (if "--no-streams" ∈ flags then
        ["c6a8b4d451afa922c4838bd202749c7e131cf05e"]  -- m-c 442977 Fx65
      else [])
  ++ (if p.system = "Windows" ∧ options.enable32 = true then
        ["577ffed9f102439db47afebcef95bbaaa2e04c93"]  -- m-c 432608 Fx63
      else [])
  ++ (if p.system = "Windows" then
        ["c085e1b32fb9bbdb00360bfb0a1057d20a752f4c"]  -- m-c 419184 Fx62
      else [])
  ++ (if "--wasm-gc" ∈ flags then
        ["302befe7689abad94a75f66ded82d5e71b558dc4"]  -- m-c 413255 Fx61
      else [])
  ++ (if "--nursery-strings=on" ∈ flags ∨ "--nursery-strings=off" ∈ flags then
        ["321c29f4850882a2f0220a4dc041c53992c47992"]  -- m-c 406115 Fx60
      else [])
  ++ (if "--spectre-mitigations=on" ∈ flags ∨ "--spectre-mitigations=off" ∈ flags then
        ["a98f615965d73f6462924188fc2b1f2a620337bb"]  -- m-c 399868 Fx59
      else [])
  ++ (if "--test-wasm-await-tier2" ∈ flags then
        ["b1dc87a94262c1bf2747d2bf560e21af5deb3174"]  -- m-c 387188 Fx58
      else [])
  ++ (if p.system = "Darwin" then
        ["e2ecf684f49e9a6f6d072c289df68ef679968c4c"]  -- m-c 383101 Fx58
      else [])
  ++ (if (flags.any fun entry => containsSubstr entry "--cpu-count=") = true then
        ["1b55231e6628e70f0c2ee2b2cb40a1e9861ac4b4"]  -- m-c 380023 Fx57
      else [])

/-- The `required` list of `earliest_known_working_rev`: the triggered rows,
then the unconditional baseline `bb868860dfc3…` (m-c 330353 Fx53, revised
template literals) appended last. -/
def required_revs (p : Platform) (options : Options) (flags : List String) :
    List String :=
  required_base p options flags ++ ["bb868860dfc35876d2d9c421c037c75a4fb9b3d2"]

/-- `common_descendants(revs)`: `" and ".join(f"descendants({r})" for r in revs)`. -/
def common_descendants (revs : List String) : String :=
  String.intercalate " and " (revs.map fun r => "descendants(" ++ r ++ ")")

/-- `earliest_known_working_rev(options, flags, skip_revs)`.  The leading
`assert` only admits Darwin hosts running at least Mac OS X 10.13;
`macVerAtLeast1013` stands for `parse_version(platform.mac_ver()[0]) >=
parse_version("10.13")`, and a failing assertion is `none`. -/
def earliest_known_working_rev (p : Platform) (macVerAtLeast1013 : Bool)
    (options : Options) (flags : List String) (skip_revs : String) :
    Option String :=
  if p.system = "Darwin" ∧ macVerAtLeast1013 = false then none
  else
    some ("first((" ++ common_descendants (required_revs p options flags)
      ++ ") - (" ++ skip_revs ++ "))")

/-! ## Range-expression model

The spec describes the revset strings the resolver emits as serializations of
a small expression algebra, evaluated by the external history store under
mercurial's DAG revset semantics (`descendants(x)` includes `x` itself, `-`
is set difference).  The following definitions model that documented external
semantics so claims about what an emitted expression denotes can be stated. -/

/-- The two revset constructors `hgrange` composes. -/
inductive RangeExpr where
  | descendantsOf (rev : String)
  | difference (a b : RangeExpr)

/-- Serialization into the history store's query dialect, `id(…)`-anchored
exactly as `hgrange` writes it. -/
def serializeRange : RangeExpr → String
  | RangeExpr.descendantsOf r => "descendants(id(" ++ r ++ "))"
  | RangeExpr.difference a b => "(" ++ serializeRange a ++ "-" ++ serializeRange b ++ ")"

/-- Modelled from the spec: a finite revision DAG held by the external
history store (the store itself is not part of this repository).  `nodes`
are the existing revisions; an edge `(x, y)` makes `y` a direct successor
of `x`. -/
structure Dag where
  nodes : List String
  edges : List (String × String)

/-- Modelled from the spec: forward reachability in the DAG, inclusive of the
seed — `descendants(x)` includes `x` itself when `x` exists. -/
inductive Reaches (d : Dag) (x : String) : String → Prop
  | refl (hx : x ∈ d.nodes) : Reaches d x x
  | step {y z : String} : Reaches d x y → (y, z) ∈ d.edges → z ∈ d.nodes →
      Reaches d x z

/-- Modelled from the spec: the denotation of a range expression over a DAG,
with `descendants` as inclusive forward reachability and `-` as set
difference. -/
def evalRange (d : Dag) : RangeExpr → Set String
  | RangeExpr.descendantsOf r => {y | Reaches d r y}
  | RangeExpr.difference a b => evalRange d a \ evalRange d b

/-! ## Spec-side validating constructor

The spec's Range Algebra rejects malformed revision identifiers at
construction time; the source's `hgrange` is compared against this
variant. -/

/-- The spec's `InvalidRevision` error. -/
inductive RangeError where
  | invalidRevision
deriving DecidableEq

/-- A well-formed revision identifier in the spec's sense: non-empty and free
of whitespace. -/
def wellFormedRev (s : String) : Bool :=
  s != "" && !(s.data.any isSpaceChar)

/-- Modelled from the spec: a `RangeExpression` constructor that rejects
malformed revision identifiers (empty string, whitespace) with
`InvalidRevision` and otherwise builds exactly the revset `hgrange`
builds.  The source's `hgrange` performs no such validation; this definition
exists to compare the two. -/
def hgrangeSpec (first_bad first_good : String) : Except RangeError String :=
  if wellFormedRev first_bad && wellFormedRev first_good then
    Except.ok (hgrange first_bad first_good)
  else Except.error RangeError.invalidRevision

/-! ## Helper lemmas -/

theorem strFoldHead (x : String) :
    "(" ++ ("descendants(id(" ++ x) = "(descendants(id(" ++ x := by
  rw [← String.append_assoc]; rfl

theorem strFoldMid (x : String) :
    "))-" ++ ("descendants(id(" ++ x) = "))-descendants(id(" ++ x := by
  rw [← String.append_assoc]; rfl

/-- `hgrange` emits exactly the serialization of
`Difference(DescendantsOf(first_bad), DescendantsOf(first_good))`. -/
theorem hgrange_serializes (a b : String) :
    hgrange a b = serializeRange (RangeExpr.difference (RangeExpr.descendantsOf a)
      (RangeExpr.descendantsOf b)) := by
  simp [hgrange, serializeRange, String.append_assoc, strFoldHead, strFoldMid]

/-- Reachability only hits existing nodes. -/
theorem Reaches.mem_nodes {d : Dag} {x z : String} (h : Reaches d x z) :
    z ∈ d.nodes := by
  induction h with
  | refl hx => exact hx
  | step _ _ hz _ => exact hz

theorem mem_if_list {α : Type} {c : Prop} [Decidable c] {a : α} {l : List α} :
    (a ∈ if c then l else []) ↔ c ∧ a ∈ l := by
  split <;> simp_all

/-- Membership in `known_broken_ranges`, entry by entry: each range is
selected exactly when its activation predicate holds. -/
theorem mem_known_broken_ranges_iff (p : Platform) (o : Options) (r : String) :
    r ∈ known_broken_ranges p o ↔
      (((((r = hgrange "4c72627cfc6c" "926f80f2c5cc" ∨
            r = hgrange "1fb7ddfad86d" "5202cfbf8d60" ∨
            r = hgrange "aae4f349fa58" "c5fbbf959e23" ∨
            r = hgrange "f611bc50d11c" "39d0c50a2209") ∨
          p.system = "Darwin" ∧ r = hgrange "3d0236f985f8" "32cef42080b1") ∨
        p.system = "Linux" ∧
          ((r = hgrange "e94dceac8090" "516c01f62d84" ∨
            p.machine = "aarch64" ∧ r = hgrange "e8bb22053e65" "999757e9e5a5") ∨
           o.disableProfiling = false ∧ r = hgrange "aa1da5ed8a07" "5a03382283ae")) ∨
        o.enableDbg = false ∧
          (r = hgrange "c5561749c1c6" "f4c15a88c937" ∨
           r = hgrange "247e265373eb" "e4aa68e2a85b")) ∨
       o.enableMoreDeterministic = true ∧ r = hgrange "427b854cdb1c" "4c4e45853808") ∨
      o.enableSimulatorArm32 = true ∧ r = hgrange "284002382c21" "05669ce25b03" := by
  simp only [known_broken_ranges, List.mem_append, mem_if_list, List.mem_cons,
    List.mem_singleton, List.not_mem_nil, or_false, false_or]

/-- Membership in `required_revs`, row by row: each revision is required
exactly when its trigger predicate matched (the unconditional baseline
last). -/
theorem mem_required_revs_iff (p : Platform) (o : Options) (flags : List String)
    (r : String) :
    r ∈ required_revs p o flags ↔
      ((((((((((("--enable-experimental-fields" ∈ flags ∧
            r = "7a1ad6647c22bd34a6c70e67dc26e5b83f71cea4" ∨
          ("--wasm-compiler=none" ∈ flags ∨ "--wasm-compiler=baseline+ion" ∈ flags ∨
              "--wasm-compiler=baseline" ∈ flags ∨ "--wasm-compiler=ion" ∈ flags) ∧
            r = "48dc14f79fb0a51ca796257a4179fe6f16b71b14") ∨
          "--more-compartments" ∈ flags ∧ r = "450b8f0cbb4e494b399ebcf23a33b8d9cb883245") ∨
          "--no-streams" ∈ flags ∧ r = "c6a8b4d451afa922c4838bd202749c7e131cf05e") ∨
          (p.system = "Windows" ∧ o.enable32 = true) ∧
            r = "577ffed9f102439db47afebcef95bbaaa2e04c93") ∨
          p.system = "Windows" ∧ r = "c085e1b32fb9bbdb00360bfb0a1057d20a752f4c") ∨
          "--wasm-gc" ∈ flags ∧ r = "302befe7689abad94a75f66ded82d5e71b558dc4") ∨
          ("--nursery-strings=on" ∈ flags ∨ "--nursery-strings=off" ∈ flags) ∧
            r = "321c29f4850882a2f0220a4dc041c53992c47992") ∨
          ("--spectre-mitigations=on" ∈ flags ∨ "--spectre-mitigations=off" ∈ flags) ∧
            r = "a98f615965d73f6462924188fc2b1f2a620337bb") ∨
          "--test-wasm-await-tier2" ∈ flags ∧
            r = "b1dc87a94262c1bf2747d2bf560e21af5deb3174") ∨
          p.system = "Darwin" ∧ r = "e2ecf684f49e9a6f6d072c289df68ef679968c4c") ∨
          (flags.any fun entry => containsSubstr entry "--cpu-count=") = true ∧
            r = "1b55231e6628e70f0c2ee2b2cb40a1e9861ac4b4") ∨
      r = "bb868860dfc35876d2d9c421c037c75a4fb9b3d2" := by
  simp only [required_revs, required_base, List.mem_append, mem_if_list, List.mem_cons,
    List.mem_singleton, List.not_mem_nil, or_false, false_or]

/-! ## Claim theorems -/

/-- C1, counterexample.  The claim says a process failure other than the
unknown-revision sentinel (non-zero exit status, error output without the
sentinel) makes `exists_and_is_ancestor` propagate an `ExternalToolFailure`.
The source passes `check=False` and never reads the exit status: a completed
call with exit status 255 and an abort message that is not the sentinel
yields the boolean `true`, not an error. -/
theorem nonzero_exit_without_sentinel_yields_ok_true :
    exists_and_is_ancestor "/home/user/trees/mc" "4c72627cfc6c" "926f80f2c5cc"
      (fun _ => Except.ok ⟨255, "abort: repository /home/user/trees/mc not found!"⟩) =
    Except.ok true := by rfl

/-- C1, amended.  `exists_and_is_ancestor` never propagates an error for a
completed process call, whatever its exit status: when the captured output is
non-empty and lacks the unknown-revision sentinel the result is the boolean
`true`.  Only an exception raised by the process call itself (timeout, launch
failure) would propagate. -/
theorem exists_and_is_ancestor_never_errors_on_completed_call
    (repo_dir rev_a rev_b : String)
    (hgRun : List String → Except ProcError CompletedProcess) (cp : CompletedProcess)
    (hrun : hgRun (ancestorQueryCmd repo_dir rev_a rev_b) = Except.ok cp)
    (hexit : cp.returncode ≠ 0)
    (hsent : containsSubstr cp.stdout unknownRevSentinel = false)
    (hne : cp.stdout ≠ "") :
    exists_and_is_ancestor repo_dir rev_a rev_b hgRun = Except.ok true := by
  unfold exists_and_is_ancestor
  rw [hrun]
  simp [hsent, hne]

/-- C1, witness: a completed call with exit status 255 and a non-sentinel
abort message returns the boolean `true`. -/
theorem exists_and_is_ancestor_never_errors_on_completed_call_witness :
    exists_and_is_ancestor "/home/user/trees/mc" "0000aaaa" "1111bbbb"
      (fun _ => Except.ok ⟨255, "abort: no repository found in /home/user!"⟩) =
    Except.ok true :=
  exists_and_is_ancestor_never_errors_on_completed_call
    "/home/user/trees/mc" "0000aaaa" "1111bbbb"
    (fun _ => Except.ok ⟨255, "abort: no repository found in /home/user!"⟩)
    ⟨255, "abort: no repository found in /home/user!"⟩
    rfl (by decide) (by decide) (by decide)

/-- C2, counterexample.  On Linux/x86_64 with every option unset the
profiling-specific exclusion range IS selected: the source adds it whenever
profiling is *not* disabled, and `disableProfiling` is unset by default, so
the claim that the range is absent fails. -/
theorem profiling_range_present_by_default :
    hgrange "aa1da5ed8a07" "5a03382283ae" ∈
      known_broken_ranges ⟨"Linux", "x86_64"⟩ ⟨false, false, false, false, false⟩ := by
  decide

/-- C2, amended.  On Linux/x86_64 with no special flags or options set,
`known_broken_ranges` contains the generic Linux GCC-5 range, does not
contain the aarch64-specific range, and (profiling being enabled by default)
does contain the profiling-specific range. -/
theorem linux_x86_64_default_range_selection :
    hgrange "e94dceac8090" "516c01f62d84" ∈
      known_broken_ranges ⟨"Linux", "x86_64"⟩ ⟨false, false, false, false, false⟩ ∧
    hgrange "e8bb22053e65" "999757e9e5a5" ∉
      known_broken_ranges ⟨"Linux", "x86_64"⟩ ⟨false, false, false, false, false⟩ ∧
    hgrange "aa1da5ed8a07" "5a03382283ae" ∈
      known_broken_ranges ⟨"Linux", "x86_64"⟩ ⟨false, false, false, false, false⟩ := by
  decide

/-- C3, counterexample.  With flags `["--wasm-gc"]` on Linux/x86_64 the
required-revision list does not contain the `--wasm-compiler` revision
`48dc14f79fb0…`, which is listed above the wasm-gc row; so the claim that
every revision listed above the wasm-gc row is included fails. -/
theorem rev_above_wasm_gc_not_included :
    "--wasm-gc" ∈ (["--wasm-gc"] : List String) ∧
    "48dc14f79fb0a51ca796257a4179fe6f16b71b14" ∉
      required_revs ⟨"Linux", "x86_64"⟩ ⟨false, false, false, false, false⟩
        ["--wasm-gc"] := by
  decide

/-- C3, amended.  When the flags contain `--wasm-gc`, the required-revision
list contains the wasm-gc revision and the unconditional baseline; a revision
listed below the wasm-gc row is included only if its own trigger matches, so
when none of those triggers fire (no nursery-strings, spectre or
await-tier2 flag, not Darwin, no `--cpu-count=` flag) none of the lower rows
except the baseline appears. -/
theorem wasm_gc_required_rev_selection (p : Platform) (o : Options)
    (flags : List String)
    (h : "--wasm-gc" ∈ flags)
    (h1 : "--nursery-strings=on" ∉ flags) (h2 : "--nursery-strings=off" ∉ flags)
    (h3 : "--spectre-mitigations=on" ∉ flags) (h4 : "--spectre-mitigations=off" ∉ flags)
    (h5 : "--test-wasm-await-tier2" ∉ flags)
    (h6 : p.system ≠ "Darwin")
    (h7 : ∀ e ∈ flags, containsSubstr e "--cpu-count=" = false) :
    "302befe7689abad94a75f66ded82d5e71b558dc4" ∈ required_revs p o flags ∧
    "bb868860dfc35876d2d9c421c037c75a4fb9b3d2" ∈ required_revs p o flags ∧
    "321c29f4850882a2f0220a4dc041c53992c47992" ∉ required_revs p o flags ∧
    "a98f615965d73f6462924188fc2b1f2a620337bb" ∉ required_revs p o flags ∧
    "b1dc87a94262c1bf2747d2bf560e21af5deb3174" ∉ required_revs p o flags ∧
    "e2ecf684f49e9a6f6d072c289df68ef679968c4c" ∉ required_revs p o flags ∧
    "1b55231e6628e70f0c2ee2b2cb40a1e9861ac4b4" ∉ required_revs p o flags := by
  refine ⟨?_, ?_, ?_, ?_, ?_, ?_, ?_⟩ <;>
    simp [mem_required_revs_iff, h, h1, h2, h3, h4, h5, h6, List.any_eq_true]
  exact h7

/-- C3, witness: the Linux/x86_64 scenario with flags `["--wasm-gc"]`. -/
theorem wasm_gc_required_rev_selection_witness :
    "302befe7689abad94a75f66ded82d5e71b558dc4" ∈
      required_revs ⟨"Linux", "x86_64"⟩ ⟨false, false, false, false, false⟩ ["--wasm-gc"] ∧
    "bb868860dfc35876d2d9c421c037c75a4fb9b3d2" ∈
      required_revs ⟨"Linux", "x86_64"⟩ ⟨false, false, false, false, false⟩ ["--wasm-gc"] ∧
    "321c29f4850882a2f0220a4dc041c53992c47992" ∉
      required_revs ⟨"Linux", "x86_64"⟩ ⟨false, false, false, false, false⟩ ["--wasm-gc"] ∧
    "a98f615965d73f6462924188fc2b1f2a620337bb" ∉
      required_revs ⟨"Linux", "x86_64"⟩ ⟨false, false, false, false, false⟩ ["--wasm-gc"] ∧
    "b1dc87a94262c1bf2747d2bf560e21af5deb3174" ∉
      required_revs ⟨"Linux", "x86_64"⟩ ⟨false, false, false, false, false⟩ ["--wasm-gc"] ∧
    "e2ecf684f49e9a6f6d072c289df68ef679968c4c" ∉
      required_revs ⟨"Linux", "x86_64"⟩ ⟨false, false, false, false, false⟩ ["--wasm-gc"] ∧
    "1b55231e6628e70f0c2ee2b2cb40a1e9861ac4b4" ∉
      required_revs ⟨"Linux", "x86_64"⟩ ⟨false, false, false, false, false⟩ ["--wasm-gc"] :=
  wasm_gc_required_rev_selection ⟨"Linux", "x86_64"⟩ ⟨false, false, false, false, false⟩
    ["--wasm-gc"] (by decide) (by decide) (by decide) (by decide) (by decide)
    (by decide) (by decide) (by decide)

/-- C4, counterexample.  `hgrange` performs no validation: constructing a
range from the malformed (empty) identifier succeeds and returns the revset
string, while the spec's validating constructor rejects the same input with
`InvalidRevision` — so the claim that construction fails on malformed input
does not hold of the source. -/
theorem hgrange_accepts_empty_revision :
    hgrange "" "39d0c50a2209" = "(descendants(id())-descendants(id(39d0c50a2209)))" ∧
    hgrangeSpec "" "39d0c50a2209" = Except.error RangeError.invalidRevision :=
  ⟨rfl, rfl⟩

/-- C4, amended.  Constructing a range never fails in the source for any
input; on well-formed identifiers (non-empty, no whitespace) the source's
`hgrange` agrees with the spec's validating constructor, which succeeds
there. -/
theorem hgrange_agrees_with_validating_constructor (first_bad first_good : String)
    (ha : wellFormedRev first_bad = true) (hb : wellFormedRev first_good = true) :
    hgrangeSpec first_bad first_good = Except.ok (hgrange first_bad first_good) := by
  simp [hgrangeSpec, ha, hb]

/-- C4, witness: a pair of well-formed revision hashes. -/
theorem hgrange_agrees_with_validating_constructor_witness :
    hgrangeSpec "4c72627cfc6c" "926f80f2c5cc" =
      Except.ok (hgrange "4c72627cfc6c" "926f80f2c5cc") :=
  hgrange_agrees_with_validating_constructor "4c72627cfc6c" "926f80f2c5cc"
    (by decide) (by decide)

/-- C5 (confirmed).  Exclusion-table selection is monotonic in the runtime
facts: if the second platform/options configuration satisfies every
activation predicate of the table that the first satisfies, every range
selected by `known_broken_ranges` under the first configuration is selected
under the second. -/
theorem known_broken_ranges_monotonic (p1 p2 : Platform) (o1 o2 : Options)
    (hD : p1.system = "Darwin" → p2.system = "Darwin")
    (hL : p1.system = "Linux" → p2.system = "Linux")
    (hA : p1.system = "Linux" ∧ p1.machine = "aarch64" →
      p2.system = "Linux" ∧ p2.machine = "aarch64")
    (hP : p1.system = "Linux" ∧ o1.disableProfiling = false →
      p2.system = "Linux" ∧ o2.disableProfiling = false)
    (hG : o1.enableDbg = false → o2.enableDbg = false)
    (hM : o1.enableMoreDeterministic = true → o2.enableMoreDeterministic = true)
    (hS : o1.enableSimulatorArm32 = true → o2.enableSimulatorArm32 = true) :
    ∀ r ∈ known_broken_ranges p1 o1, r ∈ known_broken_ranges p2 o2 := by
  intro r hr
  rw [mem_known_broken_ranges_iff] at hr ⊢
  rcases hr with ((((hbase | ⟨hd, he⟩) | ⟨hlin, hrest⟩) | ⟨hg, he⟩) | ⟨hm, he⟩) | ⟨hs, he⟩
  · exact Or.inl (Or.inl (Or.inl (Or.inl (Or.inl hbase))))
  · exact Or.inl (Or.inl (Or.inl (Or.inl (Or.inr ⟨hD hd, he⟩))))
  · rcases hrest with (he | ⟨hm, he⟩) | ⟨hp, he⟩
    · exact Or.inl (Or.inl (Or.inl (Or.inr ⟨hL hlin, Or.inl (Or.inl he)⟩)))
    · exact Or.inl (Or.inl (Or.inl (Or.inr ⟨(hA ⟨hlin, hm⟩).1,
        Or.inl (Or.inr ⟨(hA ⟨hlin, hm⟩).2, he⟩)⟩)))
    · exact Or.inl (Or.inl (Or.inl (Or.inr ⟨(hP ⟨hlin, hp⟩).1,
        Or.inr ⟨(hP ⟨hlin, hp⟩).2, he⟩⟩)))
  · exact Or.inl (Or.inl (Or.inr ⟨hG hg, he⟩))
  · exact Or.inl (Or.inr ⟨hM hm, he⟩)
  · exact Or.inr ⟨hS hs, he⟩

/-- C5, witness: growing the satisfied predicates from the Linux/x86_64
default configuration to one that additionally enables the
more-deterministic option keeps the profiling range selected. -/
theorem known_broken_ranges_monotonic_witness :
    hgrange "aa1da5ed8a07" "5a03382283ae" ∈
      known_broken_ranges ⟨"Linux", "x86_64"⟩ ⟨false, false, true, false, false⟩ :=
  known_broken_ranges_monotonic ⟨"Linux", "x86_64"⟩ ⟨"Linux", "x86_64"⟩
    ⟨false, false, false, false, false⟩ ⟨false, false, true, false, false⟩
    (by decide) (by decide) (by decide) (by decide) (by decide) (by decide) (by decide)
    (hgrange "aa1da5ed8a07" "5a03382283ae") (by decide)

/-- C6 (confirmed).  For every platform, options and flags the required
list built by `earliest_known_working_rev` is non-empty, and its last
element is the unconditional baseline revision `bb868860dfc3…`. -/
theorem required_revs_nonempty_with_baseline_last (p : Platform) (o : Options)
    (flags : List String) :
    required_revs p o flags ≠ [] ∧
    (required_revs p o flags).getLast? =
      some "bb868860dfc35876d2d9c421c037c75a4fb9b3d2" := by
  constructor
  · simp [required_revs]
  · exact List.getLast?_concat _

/-- C7, counterexample.  The claim quantifies over every pair and asserts the
evaluated set contains `firstBad` whenever it exists; taking
`firstBad = firstGood` on a one-node DAG, the difference is empty although
the revision exists, so the claim as stated fails (the spec itself calls this
the vacuous-range edge case). -/
theorem vacuous_hgrange_excludes_first_bad :
    hgrange "4c72627cfc6c" "4c72627cfc6c" =
      serializeRange (RangeExpr.difference (RangeExpr.descendantsOf "4c72627cfc6c")
        (RangeExpr.descendantsOf "4c72627cfc6c")) ∧
    "4c72627cfc6c" ∈ (Dag.mk ["4c72627cfc6c"] []).nodes ∧
    "4c72627cfc6c" ∉ evalRange (Dag.mk ["4c72627cfc6c"] [])
      (RangeExpr.difference (RangeExpr.descendantsOf "4c72627cfc6c")
        (RangeExpr.descendantsOf "4c72627cfc6c")) := by
  refine ⟨rfl, by simp, ?_⟩
  rintro ⟨hin, hout⟩
  exact hout hin

/-- C7, amended.  `hgrange` emits exactly the serialization of
`Difference(DescendantsOf(firstBad), DescendantsOf(firstGood))`; under the
DAG revset semantics (descendants inclusive of the seed) the denoted set
contains `firstBad` whenever it exists and `firstGood` is not an
ancestor-or-self of `firstBad`, and it never contains `firstGood`. -/
theorem hgrange_denotes_descendants_difference (d : Dag) (bad good : String)
    (hbad : bad ∈ d.nodes) (hng : ¬ Reaches d good bad) :
    hgrange bad good = serializeRange (RangeExpr.difference (RangeExpr.descendantsOf bad)
      (RangeExpr.descendantsOf good)) ∧
    bad ∈ evalRange d (RangeExpr.difference (RangeExpr.descendantsOf bad)
      (RangeExpr.descendantsOf good)) ∧
    good ∉ evalRange d (RangeExpr.difference (RangeExpr.descendantsOf bad)
      (RangeExpr.descendantsOf good)) := by
  refine ⟨hgrange_serializes bad good, ?_, ?_⟩
  · exact ⟨Reaches.refl hbad, hng⟩
  · rintro ⟨hin, hout⟩
    exact hout (Reaches.refl hin.mem_nodes)

/-- The two-revision DAG used as the C7 witness: `bbbb1111` is the direct
successor of `aaaa0000`. -/
def dagW : Dag := Dag.mk ["aaaa0000", "bbbb1111"] [("aaaa0000", "bbbb1111")]

/-- In `dagW` everything reachable from `bbbb1111` is `bbbb1111` itself. -/
theorem dagW_reaches_from_good {z : String} (h : Reaches dagW "bbbb1111" z) :
    z = "bbbb1111" := by
  induction h with
  | refl hx => rfl
  | step hxy hedge hz ih =>
      simp [dagW] at hedge
      exact hedge.2

/-- `bbbb1111` does not reach back to `aaaa0000` in `dagW`. -/
theorem dagW_not_reaches : ¬ Reaches dagW "bbbb1111" "aaaa0000" := by
  intro h
  exact absurd (dagW_reaches_from_good h) (by decide)

/-- C7, witness: on `dagW` with `firstBad = aaaa0000`, `firstGood = bbbb1111`
the denoted set contains the bad revision and excludes the good one. -/
theorem hgrange_denotes_descendants_difference_witness :
    hgrange "aaaa0000" "bbbb1111" =
      serializeRange (RangeExpr.difference (RangeExpr.descendantsOf "aaaa0000")
        (RangeExpr.descendantsOf "bbbb1111")) ∧
    "aaaa0000" ∈ evalRange dagW (RangeExpr.difference (RangeExpr.descendantsOf "aaaa0000")
      (RangeExpr.descendantsOf "bbbb1111")) ∧
    "bbbb1111" ∉ evalRange dagW (RangeExpr.difference (RangeExpr.descendantsOf "aaaa0000")
      (RangeExpr.descendantsOf "bbbb1111")) :=
  hgrange_denotes_descendants_difference dagW "aaaa0000" "bbbb1111"
    (by decide) dagW_not_reaches

/-- C8 (confirmed).  When the history store reports a revision unknown — the
captured output contains the `abort: unknown revision` sentinel — the
ancestry check returns the boolean `false` rather than an error: the sentinel
is treated as an empty result set. -/
theorem unknown_revision_sentinel_yields_false (repo_dir rev_a rev_b : String)
    (hgRun : List String → Except ProcError CompletedProcess) (cp : CompletedProcess)
    (hrun : hgRun (ancestorQueryCmd repo_dir rev_a rev_b) = Except.ok cp)
    (hsent : containsSubstr cp.stdout unknownRevSentinel = true) :
    exists_and_is_ancestor repo_dir rev_a rev_b hgRun = Except.ok false := by
  unfold exists_and_is_ancestor
  rw [hrun]
  simp [hsent]

/-- C8, witness: a call whose output is an unknown-revision abort returns
`Except.ok false`. -/
theorem unknown_revision_sentinel_yields_false_witness :
    exists_and_is_ancestor "/home/user/trees/mc" "deadbeef0000" "4c72627cfc6c"
      (fun _ => Except.ok ⟨255, "abort: unknown revision deadbeef0000!"⟩) =
    Except.ok false :=
  unknown_revision_sentinel_yields_false "/home/user/trees/mc" "deadbeef0000"
    "4c72627cfc6c"
    (fun _ => Except.ok ⟨255, "abort: unknown revision deadbeef0000!"⟩)
    ⟨255, "abort: unknown revision deadbeef0000!"⟩ rfl (by decide)

/-- C9 (confirmed).  When the repository-position query returns empty output
the prompt path triggers and accepts exactly three codes: `a` terminates the
process with exit status 0 issuing no further commands, `d` updates to the
default branch and re-queries, `u` re-queries anchored at the current
position (`parents()`), and any other reply ends in `ValueError`. -/
theorem prompt_accepts_exactly_three_codes
    (repo_dir repo_rev firstOut userInput secondOut : String)
    (hempty : firstOut = "") :
    (pyStrip userInput = "a" →
      get_repo_hash_and_id repo_dir repo_rev firstOut userInput secondOut =
        (RepoIdOutcome.exited 0, [logCmds repo_dir repo_rev])) ∧
    (pyStrip userInput = "d" →
      get_repo_hash_and_id repo_dir repo_rev firstOut userInput secondOut =
        (finishRepoId secondOut true,
         [logCmds repo_dir repo_rev, updateDefaultCmd repo_dir,
          logCmds repo_dir repo_rev])) ∧
    (pyStrip userInput = "u" →
      get_repo_hash_and_id repo_dir repo_rev firstOut userInput secondOut =
        (finishRepoId secondOut false,
         [logCmds repo_dir repo_rev, logCmds repo_dir "parents()"])) ∧
    (pyStrip userInput ≠ "a" → pyStrip userInput ≠ "d" → pyStrip userInput ≠ "u" →
      get_repo_hash_and_id repo_dir repo_rev firstOut userInput secondOut =
        (RepoIdOutcome.valueError, [logCmds repo_dir repo_rev])) := by
  subst hempty
  refine ⟨?_, ?_, ?_, ?_⟩
  · intro hc; simp [get_repo_hash_and_id, hc]
  · intro hc; simp [get_repo_hash_and_id, hc]
  · intro hc; simp [get_repo_hash_and_id, hc]
  · intro ha hd hu; simp [get_repo_hash_and_id, ha, hd, hu]

/-- C9, witness: with empty first output, the reply `a` exits cleanly with
status 0 after the single initial query. -/
theorem prompt_accepts_exactly_three_codes_witness :
    get_repo_hash_and_id "/home/user/trees/mc" "parents() and default" "" "a" "" =
      (RepoIdOutcome.exited 0, [logCmds "/home/user/trees/mc" "parents() and default"]) :=
  (prompt_accepts_exactly_three_codes "/home/user/trees/mc" "parents() and default"
    "" "a" "" rfl).1 (by decide)

/-- C10 (confirmed).  For every platform and option configuration,
`known_broken_ranges` begins with the four unconditional base ranges (Fx60,
Fx63, Fx64, Fx66) in that fixed order, so its length is at least four;
conditional entries are only ever appended after them. -/
theorem known_broken_ranges_begin_with_base (p : Platform) (o : Options) :
    (known_broken_ranges p o).take 4 =
      [hgrange "4c72627cfc6c" "926f80f2c5cc", hgrange "1fb7ddfad86d" "5202cfbf8d60",
       hgrange "aae4f349fa58" "c5fbbf959e23", hgrange "f611bc50d11c" "39d0c50a2209"] ∧
    4 ≤ (known_broken_ranges p o).length := by
  have ht : (known_broken_ranges p o).take 4 =
      [hgrange "4c72627cfc6c" "926f80f2c5cc", hgrange "1fb7ddfad86d" "5202cfbf8d60",
       hgrange "aae4f349fa58" "c5fbbf959e23", hgrange "f611bc50d11c" "39d0c50a2209"] := rfl
  refine ⟨ht, ?_⟩
  have hp : _ <+: known_broken_ranges p o :=
    ht ▸ List.take_prefix 4 (known_broken_ranges p o)
  simpa using hp.length_le
